import Mathlib

/-!
Shallow embedding of the resilient WebSocket connection manager from
`src/hooks/useWebsocket.ts` (the `useWebsocket` hook).

The hook's long-lived mutable ref cells become the fields of `ManagerState`;
each transport event handler (`ws.onopen`, `ws.onmessage`, `ws.onerror`,
`ws.onclose`), each public API function (`connect`, `send`, `disconnect`) and
the reconnect-timer callbacks become total Lean functions
`ManagerState → ManagerState × List Emit`, where `Emit` records the externally
observable actions (calls to `ws.send`, construction of a new transport, and
invocations of the caller-supplied lifecycle callbacks).  The host event loop
is modelled by the `step`/`steps` interpreter over an event alphabet `Ev`:
transport events are dispatched only while a handle with attached handlers
exists (`ws = some _`), because both `disconnect` and the connection cleanup
null every handler before closing, after which the runtime can no longer
invoke them.

Single-threaded semantics as in the source: a handler body runs to completion
without interleaving, so a readyState observed twice inside one synchronous
body is the same value.  The only runtime-fallible primitives are
`new WebSocket(url)` (modelled by the `ctorFails` oracle), `ws.send`
(modelled by the `sendFails` oracle / `wsSend`), and `JSON.parse` (modelled
by an abstract partial decoder `decode : Nat → Option Nat`).  Message
payloads, decoded values and URLs are opaque to the manager and are modelled
as `Nat`.  Delays are modelled in `ℚ`: the source computes
`Math.min(reconnectInterval * Math.pow(1.5, n-1), 30000)` in IEEE doubles,
and for the attempt counts at which the cap has not absorbed the product the
double computation is exact (1.5 and the bases involved are dyadic), so the
rational model agrees with the source on every value the claims mention.
-/

/-- Readiness states of the underlying transport handle
(`WebSocket.CONNECTING/OPEN/CLOSING/CLOSED`). -/
inductive ReadyState where
  | CONNECTING
  | OPEN
  | CLOSING
  | CLOSED
deriving DecidableEq, Repr

/-- Externally observable actions of the manager: a `ws.send` call handing a
payload to the transport, construction of a new transport instance
(`new WebSocket(url)`), invocations of the caller-supplied `onOpen` /
`onClose` / `onError` callbacks, and delivery of a decoded inbound value to
the caller's message handler. -/
inductive Emit where
  | transportSend (msg : Nat)
  | newTransport
  | cbOpen
  | cbClose
  | cbError
  | handlerMsg (v : Nat)
deriving DecidableEq, Repr

/-- Configuration options of the hook (`UseWebSocketOptions` with the
source defaults: `reconnect = true`, `reconnectInterval = 3000`,
`maxReconnectAttempts = Infinity`, the last modelled as `none`). -/
structure Config where
  reconnect : Bool := true
  reconnectInterval : ℚ := 3000
  maxReconnectAttempts : Option Nat := none
deriving DecidableEq, Repr

/-- The manager's mutable state, one field per long-lived ref cell of the
hook plus the `connected` React state:
`url` = `urlRef`, `ws` = `wsRef` (its readiness state when a handle exists;
`none` when `wsRef.current === null`), `pending` = `reconnectTimeoutRef`
(the scheduled delay together with a flag telling which timer callback was
registered: `true` for the `onclose` path whose callback also checks
`isConnectingRef`, `false` for the constructor-failure path whose callback
only checks `isManualCloseRef`), `reconnectAttempts` =
`reconnectAttemptsRef`, `manualClose` = `isManualCloseRef`, `isConnecting` =
`isConnectingRef`, `messageQueue` = `messageQueueRef`, `connected` = the
`connected` state. -/
structure ManagerState where
  url : Option Nat
  ws : Option ReadyState
  pending : Option (ℚ × Bool)
  reconnectAttempts : Nat
  manualClose : Bool
  isConnecting : Bool
  messageQueue : List Nat
  connected : Bool
deriving DecidableEq, Repr

/-- The guard `reconnectAttemptsRef.current >= maxReconnectAttempts`; with
the default `Infinity` budget it is never exhausted. -/
def budgetExhausted (cfg : Config) (attempts : Nat) : Bool :=
  match cfg.maxReconnectAttempts with
  | none => false
  | some m => decide (m ≤ attempts)

/-- The reconnect-delay formula as stated by the spec:
`min(base × 1.5^(n−1), 30000)` for attempt number `n ≥ 1`.  The scheduling
sites below inline the same expression exactly as the source writes it; the
claim theorem for the delay equates the scheduled values with this
formula. -/
def reconnectDelay (base : ℚ) (n : Nat) : ℚ :=
  min (base * (1.5 : ℚ) ^ (n - 1)) 30000

/-- The `catch` branch of `connect` (`useWebsocket.ts:187-211`): when
`new WebSocket(url)` throws, the manager logs, clears `isConnectingRef`,
forces `connected` to false, and — when not manually closed, reconnection is
enabled, a URL is set, and the attempt budget is not exhausted — increments
the attempt counter and schedules a retry after
`Math.min(reconnectInterval * 1.5^(attempts-1), 30000)` ms.  The timer
callback registered here re-checks only `isManualCloseRef` (flag `false` in
`pending`).  `connectRef.current` is always populated once the hook has
mounted, so that conjunct of the source condition is `true` here.
`wsRef` is not written in this branch. -/
def connectFail (cfg : Config) (s : ManagerState) : ManagerState × List Emit :=
  let s1 : ManagerState := { s with isConnecting := false, connected := false }
  if !s1.manualClose && cfg.reconnect && s1.url.isSome
      && !budgetExhausted cfg s1.reconnectAttempts then
    let attempts' := s1.reconnectAttempts + 1
    ({ s1 with
        reconnectAttempts := attempts',
        pending := some
          (min (cfg.reconnectInterval * (1.5 : ℚ) ^ (attempts' - 1)) 30000,
            false) },
      [])
  else
    (s1, [])

/-- The tail of `connect` after all early-return guards
(`useWebsocket.ts:96-211`): set `isConnectingRef`, then attempt
`new WebSocket(urlRef.current)`.  On success the new handle (readiness
`CONNECTING`) replaces `wsRef` and its four handlers are attached; on a
constructor throw the `catch` branch `connectFail` runs. -/
def connectAttempt (cfg : Config) (ctorFails : Bool) (s : ManagerState) :
    ManagerState × List Emit :=
  let s1 : ManagerState := { s with isConnecting := true }
  if ctorFails then
    connectFail cfg s1
  else
    ({ s1 with ws := some ReadyState.CONNECTING }, [Emit.newTransport])

/-- The public `connect` function (`useWebsocket.ts:50-219`).  Early returns,
in source order: no URL or manually closed; existing handle already `OPEN`;
an attempt already in progress (`isConnectingRef`); attempt budget
exhausted.  Then cleanup of a stale handle: an `OPEN` or `CLOSED` handle has
its handlers detached (and is closed if `OPEN`) and `wsRef` is nulled; a
still-`CONNECTING` handle causes an early return ("waiting"); a `CLOSING`
handle is left in place and simply overwritten by the new attempt.
`ctorFails` is the oracle for whether `new WebSocket(url)` throws. -/
def connect (cfg : Config) (ctorFails : Bool) (s : ManagerState) :
    ManagerState × List Emit :=
  if s.url.isNone || s.manualClose then (s, [])
  else if s.ws = some ReadyState.OPEN then (s, [])
  else if s.isConnecting then (s, [])
  else if budgetExhausted cfg s.reconnectAttempts then (s, [])
  else
    match s.ws with
    | some rs =>
      if rs = ReadyState.OPEN || rs = ReadyState.CLOSED then
        connectAttempt cfg ctorFails { s with ws := none }
      else if rs = ReadyState.CONNECTING then (s, [])
      else connectAttempt cfg ctorFails s
    | none => connectAttempt cfg ctorFails s

/-- The `ws.onopen` handler (`useWebsocket.ts:103-123`): clear
`isConnectingRef`, set `connected`, reset the attempt counter, drain the
queue — each queued message is handed to `ws.send` in FIFO order, under a
per-message `readyState === OPEN` check that holds throughout the
synchronous loop since the event fires on a handle that just became
`OPEN` — and finally invoke `onOpen`.  A per-message `try/catch` means a
throwing `ws.send` neither aborts the loop nor escapes; the `ws.send` call
itself (the hand-off to the transport) is what `Emit.transportSend`
records. -/
def handleOpen (s : ManagerState) : ManagerState × List Emit :=
  let s1 : ManagerState :=
    { s with
        isConnecting := false,
        connected := true,
        reconnectAttempts := 0,
        ws := some ReadyState.OPEN,
        messageQueue := [] }
  (s1, s.messageQueue.map Emit.transportSend ++ [Emit.cbOpen])

/-- The `ws.onmessage` handler (`useWebsocket.ts:125-132`): `JSON.parse` the
frame and pass the result to the current handler; a parse failure is caught
and logged, the frame is dropped, and no state is touched.  `decode` is the
abstract partial decoder standing for `JSON.parse`. -/
def handleMessage (decode : Nat → Option Nat) (frame : Nat)
    (s : ManagerState) : ManagerState × List Emit :=
  match decode frame with
  | some v => (s, [Emit.handlerMsg v])
  | none => (s, [])

/-- The `ws.onerror` handler (`useWebsocket.ts:134-139`): log, clear
`isConnectingRef`, invoke `onError`.  It deliberately does not touch
`connected` ("Don't set connected to false here - let onclose handle
it"). -/
def handleError (s : ManagerState) : ManagerState × List Emit :=
  ({ s with isConnecting := false }, [Emit.cbError])

/-- The `ws.onclose` handler (`useWebsocket.ts:141-186`): clear
`isConnectingRef`, set `connected` false, clear the message queue, invoke
`onClose`, null `wsRef` (the handle the event fired on is the current one in
this single-handle model), and — when not manually closed, reconnection
enabled, URL set, budget not exhausted — post-increment the attempt counter
and schedule a retry after `Math.min(reconnectInterval * 1.5^(attempts-1),
30000)` ms whose callback re-checks `isManualCloseRef` and
`isConnectingRef` (flag `true` in `pending`). -/
def handleClose (cfg : Config) (s : ManagerState) : ManagerState × List Emit :=
  let s1 : ManagerState :=
    { s with
        isConnecting := false,
        connected := false,
        messageQueue := [],
        ws := none }
  if !s1.manualClose && cfg.reconnect && s1.url.isSome
      && !budgetExhausted cfg s1.reconnectAttempts then
    let attempts' := s1.reconnectAttempts + 1
    ({ s1 with
        reconnectAttempts := attempts',
        pending := some
          (min (cfg.reconnectInterval * (1.5 : ℚ) ^ (attempts' - 1)) 30000,
            true) },
      [Emit.cbClose])
  else
    (s1, [Emit.cbClose])

/-- The `ws.send` primitive of the transport: raises iff the `fails` oracle
says so.  This is the only fallible operation inside the manager's `send`. -/
def wsSend (fails : Bool) : Except Unit Unit :=
  if fails then Except.error () else Except.ok ()

/-- The public `send` function (`useWebsocket.ts:226-252`) in the `Except`
monad that makes the reach of exceptions explicit: no handle yet → queue;
handle `OPEN` → `try { ws.send(...) } catch { if still OPEN, re-queue }`
(the re-check sees the same readiness, since nothing interleaves with the
synchronous body); handle `CONNECTING` or closed/closing → queue.  Every
branch returns `Except.ok`: the `catch` swallows the only throw, so no
exception crosses `send`'s boundary. -/
def sendE (msg : Nat) (fails : Bool) (s : ManagerState) :
    Except Unit (ManagerState × List Emit) :=
  match s.ws with
  | none =>
    Except.ok ({ s with messageQueue := s.messageQueue ++ [msg] }, [])
  | some rs =>
    if rs = ReadyState.OPEN then
      match wsSend fails with
      | Except.ok _ => Except.ok (s, [Emit.transportSend msg])
      | Except.error _ =>
        if rs = ReadyState.OPEN then
          Except.ok
            ({ s with messageQueue := s.messageQueue ++ [msg] },
              [Emit.transportSend msg])
        else
          Except.ok (s, [Emit.transportSend msg])
    else
      Except.ok ({ s with messageQueue := s.messageQueue ++ [msg] }, [])

/-- The pure view of `send`, used by the event interpreter.  The `error`
arm is unreachable (`sendE` always returns `ok`; proved below). -/
def send (msg : Nat) (fails : Bool) (s : ManagerState) :
    ManagerState × List Emit :=
  match sendE msg fails s with
  | Except.ok r => r
  | Except.error _ => (s, [])

/-- The public `disconnect` function (`useWebsocket.ts:254-282`): mark
manually closed, clear `isConnectingRef`, cancel a pending reconnect timer,
detach all four handlers and then close the handle (so the close fires no
callback), null `wsRef`, and set `connected` false.  The message queue is
not touched.  No caller-supplied callback is invoked anywhere in the body,
hence the empty emit list. -/
def disconnect (s : ManagerState) : ManagerState × List Emit :=
  ({ s with
      manualClose := true,
      isConnecting := false,
      pending := none,
      ws := none,
      connected := false },
    [])

/-- A pending reconnect timer fires (`useWebsocket.ts:176-184` for the
`onclose`-scheduled timer, `useWebsocket.ts:205-209` for the
constructor-failure one).  The timer slot is consumed; the callback then
re-checks `isManualCloseRef` — and, for the `onclose` variant only
(`pending`'s flag `true`), `isConnectingRef` — before calling `connect`. -/
def timerFire (cfg : Config) (ctorFails : Bool) (s : ManagerState) :
    ManagerState × List Emit :=
  match s.pending with
  | none => (s, [])
  | some (_, fromClose) =>
    let s0 : ManagerState := { s with pending := none }
    if !s0.manualClose && (!fromClose || !s0.isConnecting) then
      connect cfg ctorFails s0
    else
      (s0, [])

/-- The event alphabet of the manager's event loop: the three public API
calls, the four transport events, and a timer expiry.  The `ctorFails` /
`sendFails` oracles decide whether the fallible primitive inside the
corresponding operation throws on this occasion. -/
inductive Ev where
  | apiConnect (ctorFails : Bool)
  | apiSend (msg : Nat) (sendFails : Bool)
  | apiDisconnect
  | evOpen
  | evClose
  | evError
  | evMessage (frame : Nat)
  | timer (ctorFails : Bool)
deriving DecidableEq, Repr

/-- One turn of the host event loop.  Transport events reach the manager
only while a handle with attached handlers exists (`ws = some _`): both
`disconnect` and the handle cleanup null every handler before closing, so a
discarded handle can no longer invoke them; `evOpen` additionally requires
the handle to be mid-handshake (`CONNECTING`) and `evMessage` an `OPEN`
handle, which is when the runtime can deliver those events. -/
def step (cfg : Config) (decode : Nat → Option Nat) (e : Ev)
    (s : ManagerState) : ManagerState × List Emit :=
  match e with
  | Ev.apiConnect f => connect cfg f s
  | Ev.apiSend m f => send m f s
  | Ev.apiDisconnect => disconnect s
  | Ev.evOpen =>
    match s.ws with
    | some ReadyState.CONNECTING => handleOpen s
    | _ => (s, [])
  | Ev.evClose =>
    match s.ws with
    | some _ => handleClose cfg s
    | none => (s, [])
  | Ev.evError =>
    match s.ws with
    | some _ => handleError s
    | none => (s, [])
  | Ev.evMessage fr =>
    match s.ws with
    | some ReadyState.OPEN => handleMessage decode fr s
    | _ => (s, [])
  | Ev.timer f => timerFire cfg f s

/-- Run a sequence of event-loop turns, concatenating the emitted actions in
temporal order. -/
def steps (cfg : Config) (decode : Nat → Option Nat) (es : List Ev)
    (s : ManagerState) : ManagerState × List Emit :=
  match es with
  | [] => (s, [])
  | e :: rest =>
    let p := step cfg decode e s
    let q := steps cfg decode rest p.1
    (q.1, p.2 ++ q.2)

/-- Fold a list of messages through `send` (the `sendFails` oracle is
irrelevant while the handle is not `OPEN`, since `ws.send` is then never
invoked; it is fixed to `false`). -/
def sendAll (msgs : List Nat) (s : ManagerState) : ManagerState :=
  msgs.foldl (fun st m => (send m false st).1) s

/-- Default configuration (all option defaults) for concrete instances. -/
def cfg0 : Config := {}

/-- A concrete decoder standing for `JSON.parse`: even frames decode, odd
frames are malformed. -/
def decode0 : Nat → Option Nat :=
  fun n => if n % 2 = 0 then some (n / 2) else none

/-- A concrete idle manager state: URL configured, no handle, no timer,
nothing queued. -/
def state0 : ManagerState :=
  { url := some 0, ws := none, pending := none, reconnectAttempts := 0,
    manualClose := false, isConnecting := false, messageQueue := [],
    connected := false }

/-! ## Claim theorems -/

/-- C4: `send(message)` never raises to its caller — every branch of `sendE`
returns `Except.ok` (the per-call `try/catch` swallows the only throwing
primitive, `ws.send`) — and whenever the handle is `OPEN` and the immediate
transmission fails, the message is pushed back onto the outbound queue
rather than dropped. -/
theorem send_total_and_requeues_on_failure :
    ∀ (msg : Nat) (fails : Bool) (s : ManagerState),
      (∃ r, sendE msg fails s = Except.ok r) ∧
      (s.ws = some ReadyState.OPEN →
        sendE msg true s =
          Except.ok
            ({ s with messageQueue := s.messageQueue ++ [msg] },
              [Emit.transportSend msg])) := by
  intro msg fails s
  constructor
  · rcases s with ⟨u, w, p, a, mc, ic, q, c⟩
    cases w with
    | none => exact ⟨_, rfl⟩
    | some rs => cases rs <;> cases fails <;> exact ⟨_, rfl⟩
  · intro h
    simp [sendE, h, wsSend]

/-- Witness for C4 at a concrete open-handle state with a failing
transmission: no exception, and the message lands back on the queue. -/
theorem send_total_and_requeues_on_failure_witness :
    (∃ r, sendE 7 true { state0 with ws := some ReadyState.OPEN } =
        Except.ok r) ∧
    sendE 7 true { state0 with ws := some ReadyState.OPEN } =
      Except.ok
        ({ state0 with ws := some ReadyState.OPEN, messageQueue := [7] },
          [Emit.transportSend 7]) := by
  refine ⟨(send_total_and_requeues_on_failure 7 true _).1, ?_⟩
  have h :=
    (send_total_and_requeues_on_failure 7 true
      { state0 with ws := some ReadyState.OPEN }).2 rfl
  simpa [state0] using h

/-- C7: calling `connect` while a handle already exists in `OPEN` or
`CONNECTING` state is a no-op — the state is unchanged and no second
transport instance is constructed (no `Emit.newTransport`, the emit list is
empty). -/
theorem connect_noop_when_viable (cfg : Config) (f : Bool) (s : ManagerState)
    (h : s.ws = some ReadyState.OPEN ∨ s.ws = some ReadyState.CONNECTING) :
    connect cfg f s = (s, []) := by
  rcases h with h | h <;> simp [connect, h]

/-- Witness for C7 at concrete open and connecting states. -/
theorem connect_noop_when_viable_witness :
    connect cfg0 false { state0 with ws := some ReadyState.OPEN } =
      ({ state0 with ws := some ReadyState.OPEN }, []) ∧
    connect cfg0 true { state0 with ws := some ReadyState.CONNECTING } =
      ({ state0 with ws := some ReadyState.CONNECTING }, []) :=
  ⟨connect_noop_when_viable cfg0 false _ (Or.inl rfl),
    connect_noop_when_viable cfg0 true _ (Or.inr rfl)⟩

/-- C6: feeding any sequence of inbound frames to an open connection leaves
the manager state entirely unchanged (in particular `connected` stays as it
was and the session is not terminated), and the handler receives exactly the
decodable frames' values, in order — a decode failure is dropped without a
handler call and without affecting the delivery of later valid frames. -/
theorem decode_failures_isolated (cfg : Config) (decode : Nat → Option Nat)
    (frames : List Nat) (s : ManagerState)
    (h : s.ws = some ReadyState.OPEN) :
    steps cfg decode (frames.map Ev.evMessage) s =
      (s, (frames.filterMap decode).map Emit.handlerMsg) := by
  induction frames with
  | nil => simp [steps]
  | cons fr rest ih =>
    cases hd : decode fr <;>
      simp [steps, step, h, handleMessage, hd, List.filterMap_cons, ih]

/-- Witness for C6: frames 1 and 3 are malformed under `decode0`, frames 2
and 4 decode; the two valid frames are still delivered, in order, and the
state (with `connected = true`) is untouched. -/
theorem decode_failures_isolated_witness :
    steps cfg0 decode0 ([1, 2, 3, 4].map Ev.evMessage)
        { state0 with ws := some ReadyState.OPEN, connected := true } =
      ({ state0 with ws := some ReadyState.OPEN, connected := true },
        [Emit.handlerMsg 1, Emit.handlerMsg 2]) := by
  rw [decode_failures_isolated cfg0 decode0 [1, 2, 3, 4] _ rfl]
  simp [decode0]

/-- C5 counterexample: the claim says `connected` transitions `true → false`
on any transport error event, but `ws.onerror` deliberately leaves
`connected` untouched ("Don't set connected to false here - let onclose
handle it"): on an open, connected manager an error event leaves
`connected = true`. -/
theorem error_event_keeps_connected :
    ¬ ((step cfg0 decode0 Ev.evError
          { state0 with ws := some ReadyState.OPEN, connected := true
          }).1.connected = false) := by
  decide

/-- C5 amended: `connected` flips `false → true` exactly on a successful
open and `true → false` on any close — involuntary (a transport close
event) or manual (`disconnect`) — while a transport error event leaves
`connected` unchanged (the subsequent close event, if any, drives the
transition). -/
theorem connected_transitions (cfg : Config) (decode : Nat → Option Nat)
    (s : ManagerState) :
    (s.ws = some ReadyState.CONNECTING →
      (step cfg decode Ev.evOpen s).1.connected = true) ∧
    (∀ rs, s.ws = some rs →
      (step cfg decode Ev.evClose s).1.connected = false) ∧
    (disconnect s).1.connected = false ∧
    (step cfg decode Ev.evError s).1.connected = s.connected := by
  refine ⟨?_, ?_, rfl, ?_⟩
  · intro h; simp [step, h, handleOpen]
  · intro rs h
    simp only [step, h, handleClose]
    split <;> rfl
  · cases h : s.ws with
    | none => simp [step, h]
    | some rs => simp [step, h, handleError]

/-- Witness for C5 amended: a successful open flips `connected` true; a
close event on an open connected manager flips it false. -/
theorem connected_transitions_witness :
    (step cfg0 decode0 Ev.evOpen
        { state0 with ws := some ReadyState.CONNECTING }).1.connected =
      true ∧
    (step cfg0 decode0 Ev.evClose
        { state0 with ws := some ReadyState.OPEN, connected := true
        }).1.connected = false :=
  ⟨(connected_transitions cfg0 decode0 _).1 rfl,
    (connected_transitions cfg0 decode0 _).2.1 ReadyState.OPEN rfl⟩

/-- C3: on both retry paths — the involuntary-close path (`ws.onclose`) and
the transport-construction-failure path (the `catch` branch of `connect`) —
the delay scheduled before reconnection attempt `n = attempts + 1` (the
post-increment counter) equals `min(base × 1.5^(n−1), 30000)` ms; with
`base = 3000`, attempt 1 waits 3000ms, attempt 2 waits 4500ms, attempt 3
waits 6750ms, and attempt 8 is capped at 30000ms. -/
theorem reconnect_delay_formula :
    ∀ (cfg : Config) (s : ManagerState),
      s.manualClose = false → cfg.reconnect = true → s.url.isSome = true →
      budgetExhausted cfg s.reconnectAttempts = false →
      ((handleClose cfg s).1.pending =
          some
            (reconnectDelay cfg.reconnectInterval (s.reconnectAttempts + 1),
              true) ∧
        (connectFail cfg s).1.pending =
          some
            (reconnectDelay cfg.reconnectInterval (s.reconnectAttempts + 1),
              false)) ∧
      (reconnectDelay 3000 1 = 3000 ∧ reconnectDelay 3000 2 = 4500 ∧
        reconnectDelay 3000 3 = 6750 ∧ reconnectDelay 3000 8 = 30000) := by
  intro cfg s h1 h2 h3 h4
  refine ⟨⟨?_, ?_⟩, ?_, ?_, ?_, ?_⟩
  · simp [handleClose, h1, h2, h3, h4, reconnectDelay]
  · simp [connectFail, h1, h2, h3, h4, reconnectDelay]
  all_goals norm_num [reconnectDelay, min_def]

/-- Witness for C3: with the default configuration and the idle state
(attempt counter 0), a close schedules the first retry after exactly
3000 ms, and the eighth attempt's delay is capped at 30000 ms. -/
theorem reconnect_delay_formula_witness :
    (handleClose cfg0 state0).1.pending = some (3000, true) ∧
    reconnectDelay 3000 8 = 30000 := by
  have h := reconnect_delay_formula cfg0 state0 rfl rfl rfl rfl
  exact ⟨h.1.1.trans (by rw [show reconnectDelay cfg0.reconnectInterval (state0.reconnectAttempts + 1) = 3000 from h.2.1]),
    h.2.2.2.2⟩

/-! ## Shared step-invariant lemmas -/

/-- Frame of `send`: only the message queue can change, and `send` never
constructs a transport. -/
theorem send_preserves (msg : Nat) (fails : Bool) (s : ManagerState) :
    (send msg fails s).1.manualClose = s.manualClose ∧
    (send msg fails s).1.ws = s.ws ∧
    (send msg fails s).1.reconnectAttempts = s.reconnectAttempts ∧
    (send msg fails s).1.pending = s.pending ∧
    Emit.newTransport ∉ (send msg fails s).2 := by
  rcases s with ⟨u, w, p, a, mc, ic, q, c⟩
  cases w with
  | none => simp [send, sendE]
  | some rs => cases rs <;> cases fails <;> simp [send, sendE, wsSend]

/-- While manually closed, `connect` is a guarded no-op (first early
return). -/
theorem connect_manualClose (cfg : Config) (f : Bool) (s : ManagerState)
    (h : s.manualClose = true) : connect cfg f s = (s, []) := by
  simp [connect, h]

/-- While the attempt budget is exhausted, `connect` is a guarded no-op:
every path before the budget check already returns the state unchanged, and
the budget check itself returns before any mutation or construction. -/
theorem connect_budget (cfg : Config) (f : Bool) (s : ManagerState)
    (h : budgetExhausted cfg s.reconnectAttempts = true) :
    connect cfg f s = (s, []) := by
  simp [connect, h]

/-- One event-loop turn preserves the manual-close flag and, while it is
set, never constructs a transport: `connect` and both timer callbacks are
guarded on the flag, no handler or API call clears it, and only
`connectAttempt` (unreachable under the flag) emits `Emit.newTransport`. -/
theorem step_keeps_manualClose (cfg : Config) (decode : Nat → Option Nat)
    (e : Ev) (s : ManagerState) (h : s.manualClose = true) :
    (step cfg decode e s).1.manualClose = true ∧
      Emit.newTransport ∉ (step cfg decode e s).2 := by
  cases e with
  | apiConnect f => simp [step, connect_manualClose cfg f s h, h]
  | apiSend m f =>
    have hp := send_preserves m f s
    exact ⟨hp.1.trans h, hp.2.2.2.2⟩
  | apiDisconnect => simp [step, disconnect]
  | evOpen =>
    cases hw : s.ws with
    | none => simp [step, hw, h]
    | some rs => cases rs <;> simp [step, hw, h, handleOpen]
  | evClose =>
    cases hw : s.ws with
    | none => simp [step, hw, h]
    | some rs => simp [step, hw, handleClose, h]
  | evError =>
    cases hw : s.ws with
    | none => simp [step, hw, h]
    | some rs => simp [step, hw, handleError, h]
  | evMessage fr =>
    cases hw : s.ws with
    | none => simp [step, hw, h]
    | some rs =>
      cases rs with
      | OPEN => cases hd : decode fr <;> simp [step, hw, h, handleMessage, hd]
      | CONNECTING => simp [step, hw, h]
      | CLOSING => simp [step, hw, h]
      | CLOSED => simp [step, hw, h]
  | timer f =>
    cases hp : s.pending with
    | none => simp [step, timerFire, hp, h]
    | some pr => simp [step, timerFire, hp, h]

/-- Any sequence of event-loop turns preserves the manual-close flag and,
while it is set, never constructs a transport. -/
theorem steps_keep_manualClose (cfg : Config) (decode : Nat → Option Nat)
    (es : List Ev) (s : ManagerState) (h : s.manualClose = true) :
    (steps cfg decode es s).1.manualClose = true ∧
      Emit.newTransport ∉ (steps cfg decode es s).2 := by
  induction es generalizing s with
  | nil => exact ⟨h, by simp [steps]⟩
  | cons e rest ih =>
    have h1 := step_keeps_manualClose cfg decode e s h
    have h2 := ih (step cfg decode e s).1 h1.1
    refine ⟨h2.1, ?_⟩
    simp only [steps, List.mem_append]
    rintro (hc | hc)
    · exact h1.2 hc
    · exact h2.2 hc

/-- One event-loop turn with the attempt budget exhausted and no handshake
in flight: the budget stays exhausted, no handle ever reaches `CONNECTING`,
and no transport is constructed — the counter is reset only by `ws.onopen`
(impossible without a `CONNECTING` handle) and both `connect` and the timer
callbacks return before constructing anything once the budget check fails. -/
theorem step_budget_exhausted (cfg : Config) (decode : Nat → Option Nat)
    (e : Ev) (s : ManagerState)
    (h1 : budgetExhausted cfg s.reconnectAttempts = true)
    (h2 : s.ws ≠ some ReadyState.CONNECTING) :
    budgetExhausted cfg (step cfg decode e s).1.reconnectAttempts = true ∧
    (step cfg decode e s).1.ws ≠ some ReadyState.CONNECTING ∧
    Emit.newTransport ∉ (step cfg decode e s).2 := by
  cases e with
  | apiConnect f => simp [step, connect_budget cfg f s h1, h1, h2]
  | apiSend m f =>
    have hp := send_preserves m f s
    refine ⟨?_, ?_, hp.2.2.2.2⟩
    · show budgetExhausted cfg (send m f s).1.reconnectAttempts = true
      rw [hp.2.2.1]; exact h1
    · show (send m f s).1.ws ≠ some ReadyState.CONNECTING
      rw [hp.2.1]; exact h2
  | apiDisconnect => simp [step, disconnect, h1]
  | evOpen =>
    cases hw : s.ws with
    | none => simp [step, hw, h1]
    | some rs =>
      cases rs with
      | CONNECTING => exact absurd hw h2
      | OPEN => simp [step, hw, h1, h2]
      | CLOSING => simp [step, hw, h1, h2]
      | CLOSED => simp [step, hw, h1, h2]
  | evClose =>
    cases hw : s.ws with
    | none => simp [step, hw, h1, h2]
    | some rs => simp [step, hw, handleClose, h1]
  | evError =>
    cases hw : s.ws with
    | none => simp [step, hw, h1, h2]
    | some rs =>
      rw [hw] at h2
      simp [step, hw, handleError, h1, h2]
  | evMessage fr =>
    cases hw : s.ws with
    | none => simp [step, hw, h1, h2]
    | some rs =>
      cases rs with
      | CONNECTING => exact absurd hw h2
      | OPEN =>
        cases hd : decode fr <;> simp [step, hw, h1, handleMessage, hd]
      | CLOSING => simp [step, hw, h1]
      | CLOSED => simp [step, hw, h1]
  | timer f =>
    cases hp : s.pending with
    | none => simp [step, timerFire, hp, h1, h2]
    | some pr =>
      have hc := connect_budget cfg f { s with pending := none } h1
      simp [step, timerFire, hp, hc, h1, h2]

/-- While the handle is mid-handshake, `send` only appends to the queue
(`sendAll` over a message list appends the whole list in order). -/
theorem sendAll_queues (msgs : List Nat) (s : ManagerState)
    (h : s.ws = some ReadyState.CONNECTING) :
    sendAll msgs s = { s with messageQueue := s.messageQueue ++ msgs } := by
  induction msgs generalizing s with
  | nil => simp [sendAll]
  | cons m rest ih =>
    have hs : (send m false s).1 =
        { s with messageQueue := s.messageQueue ++ [m] } := by
      simp [send, sendE, h]
    have h2 : ({ s with messageQueue := s.messageQueue ++ [m] } :
        ManagerState).ws = some ReadyState.CONNECTING := h
    calc sendAll (m :: rest) s = sendAll rest (send m false s).1 := rfl
    _ = sendAll rest { s with messageQueue := s.messageQueue ++ [m] } := by
        rw [hs]
    _ = { s with messageQueue := (s.messageQueue ++ [m]) ++ rest } := ih _ h2
    _ = { s with messageQueue := s.messageQueue ++ (m :: rest) } := by simp

/-- C2: every sequence of messages passed to `send` while the connection is
not yet open is queued, and on the open transition the manager hands
exactly those messages to the transport, in the original call order, each
exactly once — and all of them strictly before the `onOpen` callback (the
emit list is the `ws.send` calls in queue order followed by `cbOpen`). -/
theorem queued_sends_flushed_in_order (cfg : Config)
    (decode : Nat → Option Nat) (msgs : List Nat) (s : ManagerState)
    (h1 : s.ws = some ReadyState.CONNECTING) (h2 : s.messageQueue = []) :
    step cfg decode Ev.evOpen (sendAll msgs s) =
      ({ s with
          isConnecting := false, connected := true, reconnectAttempts := 0,
          ws := some ReadyState.OPEN, messageQueue := [] },
        msgs.map Emit.transportSend ++ [Emit.cbOpen]) := by
  rw [sendAll_queues msgs s h1]
  simp [step, h1, handleOpen, h2]

/-- Witness for C2: three messages sent while connecting are transmitted on
open in call order, each once, before `onOpen`. -/
theorem queued_sends_flushed_in_order_witness :
    step cfg0 decode0 Ev.evOpen
        (sendAll [3, 1, 2] { state0 with ws := some ReadyState.CONNECTING }) =
      ({ state0 with connected := true, ws := some ReadyState.OPEN },
        [Emit.transportSend 3, Emit.transportSend 1, Emit.transportSend 2,
          Emit.cbOpen]) :=
  (queued_sends_flushed_in_order cfg0 decode0 [3, 1, 2]
      { state0 with ws := some ReadyState.CONNECTING } rfl rfl).trans
    (by decide)

/-- C1 counterexample: the claim says the outbound queue is empty after any
`disconnect()`, but `disconnect` never touches `messageQueueRef` — on a
manager with message 7 queued, the queue still holds 7 afterwards.  (The
queue-clearing in the source lives in `ws.onclose`, which a manual
disconnect deliberately prevents from firing by detaching handlers before
closing.) -/
theorem disconnect_leaves_queue :
    ¬ ((disconnect { state0 with messageQueue := [7] }).1.messageQueue
        = []) := by
  decide

/-- C1 amended: after any call to `disconnect()`, the pending reconnection
timer is cancelled, the connection handle is discarded, and no subsequent
event of any kind — timer expiries included — ever constructs a new
transport (automatic reconnection is fully suppressed); the outbound
message queue, however, is left exactly as it was, not cleared. -/
theorem disconnect_cancels_and_suppresses (cfg : Config)
    (decode : Nat → Option Nat) (es : List Ev) (s : ManagerState) :
    (disconnect s).1.pending = none ∧
    (disconnect s).1.ws = none ∧
    (disconnect s).1.messageQueue = s.messageQueue ∧
    Emit.newTransport ∉ (steps cfg decode es (disconnect s).1).2 :=
  ⟨rfl, rfl, rfl, (steps_keep_manualClose cfg decode es _ rfl).2⟩

/-- C9: once `disconnect()` has run, the manager never establishes a
connection again under the modelled API and event alphabet (which contains
every returned operation — `send`, `disconnect`, `connect` — plus all
transport events and timer expiries, but no URL change, the one thing that
resets `isManualCloseRef`): the manual-close flag survives every event and
no `new WebSocket` construction is ever emitted. -/
theorem disconnect_is_permanent (cfg : Config) (decode : Nat → Option Nat)
    (es : List Ev) (s : ManagerState) :
    (steps cfg decode es (disconnect s).1).1.manualClose = true ∧
    Emit.newTransport ∉ (steps cfg decode es (disconnect s).1).2 :=
  steps_keep_manualClose cfg decode es _ rfl

/-- C10 counterexample: the claim's effect frame — "disconnect's only
observable effects are setting `connected` to false, cancelling the pending
timer, and discarding the connection handle" — entails that the manual-close
flag is left unchanged, yet `disconnect`'s very first statement sets
`isManualCloseRef.current = true`: on a manager with the flag clear, the
flag differs after the call. -/
theorem disconnect_changes_manual_flag :
    ¬ ((disconnect state0).1.manualClose = state0.manualClose) := by
  decide

/-- C10 amended: a manual `disconnect()` invokes none of the lifecycle
callbacks (its emit list is empty, because all four transport handlers are
detached before the handle is closed), and afterwards no transport event
can invoke them either (open/close/error/message events on the discarded
handle are no-ops); its effects are exactly: `connected` set to false, the
pending timer cancelled, the connection handle discarded, the manual-close
flag set, and the attempt-in-progress flag cleared — the queue, the URL and
the attempt counter are untouched. -/
theorem disconnect_invokes_no_callbacks (cfg : Config)
    (decode : Nat → Option Nat) (s : ManagerState) :
    (disconnect s).2 = [] ∧
    (disconnect s).1 =
      { s with
          connected := false, pending := none, ws := none,
          manualClose := true, isConnecting := false } ∧
    step cfg decode Ev.evOpen (disconnect s).1 = ((disconnect s).1, []) ∧
    step cfg decode Ev.evClose (disconnect s).1 = ((disconnect s).1, []) ∧
    step cfg decode Ev.evError (disconnect s).1 = ((disconnect s).1, []) ∧
    ∀ fr, step cfg decode (Ev.evMessage fr) (disconnect s).1 =
      ((disconnect s).1, []) :=
  ⟨rfl, rfl, rfl, rfl, rfl, fun _ => rfl⟩

/-- C8: once the reconnection attempt counter has reached
`maxReconnectAttempts` (and no handshake is still in flight, which is the
case whenever the budget was consumed by failed attempts), no sequence of
events — explicit `connect` calls included — ever constructs a transport or
brings a handle into the `CONNECTING` state, and the budget stays
exhausted; every operation involved is total, so no exception is raised.
The counter can only be reset by a successful open (impossible without a
new transport) or by a URL change, outside this alphabet. -/
theorem exhausted_budget_is_terminal (cfg : Config)
    (decode : Nat → Option Nat) (es : List Ev) (s : ManagerState)
    (h1 : budgetExhausted cfg s.reconnectAttempts = true)
    (h2 : s.ws ≠ some ReadyState.CONNECTING) :
    budgetExhausted cfg (steps cfg decode es s).1.reconnectAttempts = true ∧
    (steps cfg decode es s).1.ws ≠ some ReadyState.CONNECTING ∧
    Emit.newTransport ∉ (steps cfg decode es s).2 := by
  induction es generalizing s with
  | nil => exact ⟨h1, h2, by simp [steps]⟩
  | cons e rest ih =>
    have hs := step_budget_exhausted cfg decode e s h1 h2
    have hr := ih (step cfg decode e s).1 hs.1 hs.2.1
    refine ⟨hr.1, hr.2.1, ?_⟩
    simp only [steps, List.mem_append]
    rintro (hc | hc)
    · exact hs.2.2 hc
    · exact hr.2.2 hc

/-- Witness for C8: with a budget of 2 attempts already consumed, an
explicit `connect`, a timer expiry and a `send` neither construct a
transport nor revive the counter. -/
theorem exhausted_budget_is_terminal_witness :
    budgetExhausted { maxReconnectAttempts := some 2 }
        (steps { maxReconnectAttempts := some 2 } decode0
            [Ev.apiConnect false, Ev.timer false, Ev.apiSend 1 false]
            { state0 with reconnectAttempts := 2 }).1.reconnectAttempts =
      true ∧
    (steps { maxReconnectAttempts := some 2 } decode0
          [Ev.apiConnect false, Ev.timer false, Ev.apiSend 1 false]
          { state0 with reconnectAttempts := 2 }).1.ws ≠
      some ReadyState.CONNECTING ∧
    Emit.newTransport ∉
      (steps { maxReconnectAttempts := some 2 } decode0
          [Ev.apiConnect false, Ev.timer false, Ev.apiSend 1 false]
          { state0 with reconnectAttempts := 2 }).2 :=
  exhausted_budget_is_terminal { maxReconnectAttempts := some 2 } decode0
    [Ev.apiConnect false, Ev.timer false, Ev.apiSend 1 false]
    { state0 with reconnectAttempts := 2 } (by decide) (by decide)
